import Mathlib

/-!
Verification of the open-notebook Strongly.AI integration layer:
the authentication middleware (src/api/auth.py), the service-registry
parser (src/api/strongly.py) and the model-sync reconciler
(src/api/routers/strongly.py), shallowly embedded as pure Lean functions.

Conventions of the embedding:
* Python strings are Lean `String`; `str.lower()` and `str.strip()` are
  embedded for the ASCII range (`strLower`, `pyStrip`), which covers every
  header and identifier the middleware handles.
* Python dict / HTTP header lookups become total Lean functions; a request
  header map is a function from lowercase header names to `Option String`
  (both the middleware and the web framework look headers up
  case-insensitively, so the lowercase-keyed map is the observable state).
* Code that can raise an exception which escapes to the caller returns
  `Except Unit`; exceptions that the source catches locally are folded into
  the value the handler produces, exactly as the `except` branch does.
* JSON values produced by `json.loads` are the inductive `Json`; parsed
  objects are association lists (the Python parser yields dicts with
  distinct keys).
-/

namespace ON

/-- Embedding of Python `str.lower()` (ASCII case folding, as used on
header values and model identifiers). -/
def strLower (s : String) : String :=
  ⟨s.data.map Char.toLower⟩

/-- Embedding of Python `str.strip()` with no argument: remove leading and
trailing whitespace. -/
def pyStrip (s : String) : String :=
  ⟨((s.data.dropWhile Char.isWhitespace).reverse.dropWhile Char.isWhitespace).reverse⟩

/-- Helper for `splitOnce`: split a character list at the first space,
returning the parts before and after it, or `none` when no space occurs. -/
def splitOnceAux : List Char → Option (List Char × List Char)
  | [] => none
  | c :: cs =>
    if c = ' ' then some ([], cs)
    else
      match splitOnceAux cs with
      | some (l, r) => some (c :: l, r)
      | none => none

/-- Embedding of Python `s.split(" ", 1)` followed by a two-variable
unpacking: `some (before, after)` when the string contains a space
(splitting at the first one), `none` when the unpacking would raise
`ValueError` because no space is present. -/
def splitOnce (s : String) : Option (String × String) :=
  (splitOnceAux s.data).map (fun p => (⟨p.1⟩, ⟨p.2⟩))

/-- Truthiness of a Python `Optional[str]`: `None` and the empty string are
falsy, any other string is truthy. -/
def pyTruthyStr : Option String → Bool
  | none => false
  | some s => s ≠ ""

/-- User record built by `get_user_from_headers` (class `StronglyUser` in
src/api/strongly.py). -/
structure StronglyUser where
  user_id : String
  email : String
  name : String
  app_role : String
  platform_role : String
  authenticated : Bool
deriving DecidableEq, Repr

/-- A request header map: lookup by lowercase header name. The middleware
lowercases every header name before the identity lookups, and the
`Authorization` lookup of the web framework is case-insensitive as well, so
the lowercase-keyed map is exactly the state both consult. -/
def HeaderMap := String → Option String

/-- Embedding of `headers.get(key, default)` on the lowercase-keyed map. -/
def headerGetD (h : HeaderMap) (key dflt : String) : String :=
  (h key).getD dflt

/-- Embedding of `email.split("@")[0]`: the part of the string before the
first `@`, or the whole string when there is none. -/
def localPart (s : String) : String :=
  ⟨s.data.takeWhile (fun c => c ≠ '@')⟩

/-- Embedding of `get_user_from_headers` (src/api/strongly.py, lines
123-148): build a `StronglyUser` from the trusted identity headers, or
`none` when `x-auth-user-id` or `x-auth-user-email` is empty after
stripping. -/
def get_user_from_headers (h : HeaderMap) : Option StronglyUser :=
  let user_id := pyStrip (headerGetD h "x-auth-user-id" "")
  let email := pyStrip (headerGetD h "x-auth-user-email" "")
  if user_id = "" ∨ email = "" then
    none
  else
    some {
      user_id := user_id
      email := email
      name := pyStrip (headerGetD h "x-auth-user-name" (localPart email))
      app_role := pyStrip (headerGetD h "x-auth-app-role" "user")
      platform_role := pyStrip (headerGetD h "x-auth-platform-role" "user")
      authenticated := strLower (headerGetD h "x-auth-authenticated" "false") == "true"
    }

/-- Configuration of `StronglyAuthMiddleware` captured at construction:
the excluded-path list, the `STRONGLY_MODE` flag and the
`OPEN_NOTEBOOK_PASSWORD` value (absent environment variable = `none`). -/
structure AuthConfig where
  excluded_paths : List String
  strongly_mode : Bool
  password : Option String

/-- The default excluded-path list of `StronglyAuthMiddleware.__init__`. -/
def defaultExcludedPaths : List String :=
  ["/", "/health", "/docs", "/openapi.json", "/redoc"]

/-- The part of an inbound request the middleware inspects. -/
structure Request where
  path : String
  method : String
  headers : HeaderMap

/-- Outcome of `StronglyAuthMiddleware.dispatch`: pass the request through
(`allow`), pass it through with a user attached to `request.state`
(`allowWithIdentity`), or answer a `JSONResponse` with a status code and a
`detail` string (`reject`). -/
inductive AuthDecision where
  | allow
  | allowWithIdentity (user : StronglyUser)
  | reject (status : Nat) (detail : String)
deriving DecidableEq, Repr

/-- The password-fallback block of `StronglyAuthMiddleware.dispatch`
(src/api/auth.py, lines 74-103), given the non-empty configured password
and the `Authorization` header value: missing or falsy header, split at
the first space, case-insensitive scheme check, exact token comparison. -/
def passwordCheck (pw : String) : Option String → AuthDecision
  | none => .reject 401 "Missing authorization header"
  | some a =>
    if a = "" then
      .reject 401 "Missing authorization header"
    else
      match splitOnce a with
      | none => .reject 401 "Invalid authorization header format"
      | some (scheme, credentials) =>
        if strLower scheme ≠ "bearer" then
          .reject 401 "Invalid authorization header format"
        else if credentials ≠ pw then
          .reject 401 "Invalid password"
        else
          .allow

/-- Embedding of `StronglyAuthMiddleware.dispatch` (src/api/auth.py, lines
40-103) as a pure decision function. -/
def dispatch (cfg : AuthConfig) (req : Request) : AuthDecision :=
  if req.path ∈ cfg.excluded_paths then
    .allow
  else if req.method = "OPTIONS" then
    .allow
  else
    match get_user_from_headers req.headers with
    | some user =>
      if !user.authenticated then
        .reject 401 "User not authenticated"
      else
        .allowWithIdentity user
    | none =>
      if cfg.strongly_mode then
        .reject 401 "Missing Strongly.AI authentication headers"
      else
        match cfg.password with
        | none => .allow
        | some pw =>
          if pw = "" then
            .allow
          else
            passwordCheck pw (req.headers "authorization")

/-! ### Service registry (src/api/strongly.py) -/

/-- JSON values as produced by `json.loads`. Objects are association
lists; the Python parser yields dicts, whose keys are distinct. Numbers
are modelled as integers (no claim involves fractional values). -/
inductive Json where
  | null
  | bool (b : Bool)
  | num (n : Int)
  | str (s : String)
  | arr (xs : List Json)
  | obj (fields : List (String × Json))

/-- Python truthiness of a JSON value: `None`, `False`, `0`, `""`, `[]`
and `{}` are falsy, everything else is truthy. -/
def Json.truthy : Json → Bool
  | .null => false
  | .bool b => b
  | .num n => n ≠ 0
  | .str s => s ≠ ""
  | .arr xs => !xs.isEmpty
  | .obj fs => !fs.isEmpty

/-- Embedding of Python `d.get(key, default)`: `.error ()` when the value
is not a dict (Python raises `AttributeError`), otherwise the value under
`key`, or `default` when the key is absent. -/
def pyGet (j : Json) (key : String) (dflt : Json) : Except Unit Json :=
  match j with
  | .obj fs => .ok (((fs.find? (fun p => p.1 == key)).map (fun p => p.2)).getD dflt)
  | _ => .error ()

/-- Embedding of Python `d.get(key)` (default `None` distinguished from a
stored value): `.error ()` when the value is not a dict. -/
def pyGetOpt (j : Json) (key : String) : Except Unit (Option Json) :=
  match j with
  | .obj fs => .ok ((fs.find? (fun p => p.1 == key)).map (fun p => p.2))
  | _ => .error ()

/-- Embedding of Python `s.rstrip("/")`: remove every trailing slash. -/
def rstripSlash (s : String) : String :=
  ⟨(s.data.reverse.dropWhile (fun c => c = '/')).reverse⟩

/-- Gateway configuration record (dataclass `AIGatewayConfig`). The source
stores `api_key` without a type check, so the field keeps the raw JSON
value found under `"api_key"` (absent key = `none`). -/
structure AIGatewayConfig where
  base_url : String
  api_key : Option Json

/-- Embedding of `StronglyServices._parse_ai_gateway` (src/api/strongly.py,
lines 72-93). Every exception raised inside is caught by its own
`except Exception` and leaves the gateway unset, as do the two falsy
branches, so the result is simply `Option AIGatewayConfig`. -/
def parse_ai_gateway (root : Json) : Option AIGatewayConfig :=
  match pyGet root "services" (.obj []) with
  | .error _ => none
  | .ok services =>
    match pyGet services "ai_gateway" (.obj []) with
    | .error _ => none
    | .ok gw =>
      if gw.truthy then
        match pyGet gw "base_url" (.str ""), pyGetOpt gw "api_key" with
        | .ok base_url, .ok api_key =>
          if base_url.truthy then
            match base_url with
            | .str s => some ⟨rstripSlash s, api_key⟩
            | _ => none
          else
            none
        | _, _ => none
      else
        none

/-- The raw `STRONGLY_SERVICES` input as `_load_services` case-splits on
it: unset or empty (`if not services_json`), non-empty but rejected by
`json.loads`, or non-empty and parsed to a JSON value. The parser itself
is the external `json` module; its outcome is the embedded input. -/
inductive RawInput where
  | absent
  | malformed
  | valid (j : Json)

/-- Registry state: the parsed services tree (`_services`, initially the
empty dict) and the extracted gateway configuration (`_ai_gateway`). -/
structure StronglyState where
  services : Json
  ai_gateway : Option AIGatewayConfig

/-- Embedding of `StronglyServices._load_services` (src/api/strongly.py,
lines 55-70): unset/empty input and `JSONDecodeError` both leave the
registry empty, and only a successful parse runs `_parse_ai_gateway`. -/
def load_services : RawInput → StronglyState
  | .absent => ⟨.obj [], none⟩
  | .malformed => ⟨.obj [], none⟩
  | .valid j => ⟨j, parse_ai_gateway j⟩

/-- Embedding of the `is_configured` property: the gateway was extracted. -/
def is_configured (st : StronglyState) : Bool :=
  st.ai_gateway.isSome

/-- Embedding of `StronglyServices.get_service` (src/api/strongly.py,
lines 105-107): `self._services.get("services", {}).get(service_name)`.
`.error ()` models an exception escaping to the caller. -/
def get_service (st : StronglyState) (service_name : String) : Except Unit (Option Json) :=
  match pyGet st.services "services" (.obj []) with
  | .error _ => .error ()
  | .ok svcs => pyGetOpt svcs service_name

/-- Python sequence indexing `xs[i]` for a sequence of length `len`:
a negative index counts from the end; `none` models `IndexError`. -/
def pySeqIndex (len : Nat) (i : Int) : Option Nat :=
  let j := if i < 0 then i + len else i
  if 0 ≤ j ∧ j < (len : Int) then some j.toNat else none

/-- Embedding of `StronglyServices.get_database` (src/api/strongly.py,
lines 109-115). The body runs `len(db_list)` and `db_list[index]` on
whatever JSON value sits under the type key, so the embedding follows the
Python semantics of each shape: arrays and strings support `len` and
indexing, dicts support `len` but raise `KeyError` on integer indexing,
and any other truthy value raises `TypeError` at `len`. -/
def get_database (st : StronglyState) (db_type : String) (index : Int) : Except Unit (Option Json) :=
  match pyGet st.services "services" (.obj []) with
  | .error _ => .error ()
  | .ok svcs =>
    match pyGet svcs "databases" (.obj []) with
    | .error _ => .error ()
    | .ok databases =>
      match pyGet databases db_type (.arr []) with
      | .error _ => .error ()
      | .ok db_list =>
        if db_list.truthy then
          match db_list with
          | .arr xs =>
            if (xs.length : Int) > index then
              match pySeqIndex xs.length index with
              | some k => .ok (xs.get? k)
              | none => .error ()
            else
              .ok none
          | .str s =>
            if (s.length : Int) > index then
              match pySeqIndex s.length index with
              | some k => .ok ((s.data.get? k).map (fun c => .str ⟨[c]⟩))
              | none => .error ()
            else
              .ok none
          | .obj fs =>
            if (fs.length : Int) > index then .error () else .ok none
          | _ => .error ()
        else
          .ok none

/-! ### Model-sync reconciler (src/api/routers/strongly.py) -/

/-- A persisted model record: the fields `sync_models_from_gateway` writes
(`Model(name=model_id, provider="openai_compatible", type=model_type)`). -/
structure Model where
  name : String
  provider : String
  type : String
deriving DecidableEq, Repr

/-- Counters and id list returned by the sync endpoint (`SyncResult`). -/
structure SyncResult where
  synced : Nat
  skipped : Nat
  errors : Nat
  models : List String
deriving DecidableEq, Repr

/-- Helper for `containsSub`: does `needle` occur as a contiguous run
inside the character list? -/
def containsAux (needle : List Char) : List Char → Bool
  | [] => needle.isEmpty
  | c :: cs => needle.isPrefixOf (c :: cs) || containsAux needle cs

/-- Embedding of the Python substring test `needle in hay`. -/
def containsSub (hay needle : String) : Bool :=
  containsAux needle.data hay.data

/-- Embedding of the existence query
`SELECT * FROM model WHERE name = $name AND provider = $provider` with
`provider = "openai_compatible"` against a store of model records. -/
def modelExists (store : List Model) (model_id : String) : Bool :=
  store.any (fun m => m.name == model_id && m.provider == "openai_compatible")

/-- Embedding of the type classifier inside `sync_models_from_gateway`
(src/api/routers/strongly.py, lines 129-136): case-insensitive substring
matching on the model id, first match wins. -/
def classifyModelType (model_id : String) : String :=
  if containsSub (strLower model_id) "embed" then
    "embedding"
  else if containsSub (strLower model_id) "tts" || containsSub (strLower model_id) "speech" then
    "text_to_speech"
  else if containsSub (strLower model_id) "stt" || containsSub (strLower model_id) "whisper" then
    "speech_to_text"
  else
    "language"

/-- The record `sync_models_from_gateway` saves for a new model id. -/
def mkModel (model_id : String) : Model :=
  ⟨model_id, "openai_compatible", classifyModelType model_id⟩

/-- Embedding of the per-descriptor loop of `sync_models_from_gateway`
(src/api/routers/strongly.py, lines 113-159). `ids` are the values of
`gw_model.get("id", "")` in input order (a missing `id` yields `""`).
`fail` is the store oracle: `fail id = true` means the store raises while
handling that id (`repo_query` or `save`), which the loop catches, counts
in `errors`, and survives. The result pairs the `SyncResult` with the
final store. -/
def sync_models (fail : String → Bool) (store : List Model) :
    List String → SyncResult × List Model
  | [] => (⟨0, 0, 0, []⟩, store)
  | id :: rest =>
    if id = "" then
      sync_models fail store rest
    else if fail id then
      let p := sync_models fail store rest
      (⟨p.1.synced, p.1.skipped, p.1.errors + 1, p.1.models⟩, p.2)
    else if modelExists store id then
      let p := sync_models fail store rest
      (⟨p.1.synced, p.1.skipped + 1, p.1.errors, p.1.models⟩, p.2)
    else
      let p := sync_models fail (store ++ [mkModel id]) rest
      (⟨p.1.synced + 1, p.1.skipped, p.1.errors, id :: p.1.models⟩, p.2)

/-- The store oracle of a store that never fails. -/
def noFail : String → Bool := fun _ => false

/-! ### Concrete instances used by the witness theorems -/

/-- Build a header map from an association list of lowercase names. -/
def hdrs (l : List (String × String)) : HeaderMap :=
  fun k => (l.find? (fun p => p.1 == k)).map (fun p => p.2)

/-- A middleware configuration with the default excluded paths, Strongly
mode off and the password `"secret"` configured. -/
def cfgPassword : AuthConfig :=
  ⟨defaultExcludedPaths, false, some "secret"⟩

/-- A middleware configuration with Strongly mode on and a password also
configured. -/
def cfgStrict : AuthConfig :=
  ⟨defaultExcludedPaths, true, some "secret"⟩

/-- A request to a protected path carrying only an optional
`Authorization` header. -/
def reqAuth (a : Option String) : Request :=
  ⟨"/api/notes", "GET", hdrs (match a with | some v => [("authorization", v)] | none => [])⟩

/-- A request carrying identity headers with `x-auth-authenticated` set to
`"false"`, together with a correct bearer password. -/
def reqIdentityUnauth : Request :=
  ⟨"/api/notes", "GET", hdrs
    [("x-auth-user-id", "u1"), ("x-auth-user-email", "user@example.com"),
     ("x-auth-authenticated", "false"), ("authorization", "Bearer secret")]⟩

/-- A registry JSON tree whose gateway base URL is `"http://x/"`. -/
def gwFields : List (String × Json) :=
  [("base_url", .str "http://x/")]

/-- The services member wrapping `gwFields`. -/
def svcFields : List (String × Json) :=
  [("ai_gateway", .obj gwFields)]

/-- The top-level registry tree wrapping `svcFields`. -/
def regFields : List (String × Json) :=
  [("services", .obj svcFields)]

/-- Gateway fields whose base URL is the slash-only string `"/"`. -/
def gwSlashFields : List (String × Json) :=
  [("base_url", .str "/")]

/-- The services member wrapping `gwSlashFields`. -/
def svcSlashFields : List (String × Json) :=
  [("ai_gateway", .obj gwSlashFields)]

/-- The top-level registry tree wrapping `svcSlashFields`. -/
def regSlashFields : List (String × Json) :=
  [("services", .obj svcSlashFields)]

/-- A registry tree with a two-element `mongodb` database list. -/
def dbFields : List (String × Json) :=
  [("services", .obj [("databases", .obj [("mongodb", .arr [.str "db0", .str "db1"])])])]

/-! ### Theorems -/

/-- C4: for every configuration and every request, a path on the
excluded-path list or an `OPTIONS` method makes `dispatch` return `Allow`
with no credential check (the path test is the first branch of the code,
the method test the second, both before any header is read). -/
theorem auth_bypass (cfg : AuthConfig) (req : Request)
    (h : req.path ∈ cfg.excluded_paths ∨ req.method = "OPTIONS") :
    dispatch cfg req = .allow := by
  unfold dispatch
  rcases h with h | h
  · rw [if_pos h]
  · by_cases hp : req.path ∈ cfg.excluded_paths
    · rw [if_pos hp]
    · rw [if_neg hp, if_pos h]

/-- Witness for C4: the default excluded path `/health` is allowed even
under the strictest configuration (Strongly mode on, password set). -/
theorem auth_bypass_witness :
    "/health" ∈ cfgStrict.excluded_paths ∧
    dispatch cfgStrict ⟨"/health", "GET", hdrs []⟩ = .allow :=
  ⟨by decide, auth_bypass cfgStrict ⟨"/health", "GET", hdrs []⟩ (Or.inl (by decide))⟩

/-- C2: on a non-excluded path with a non-`OPTIONS` method, identity
headers with a non-empty stripped user id and email but an
`x-auth-authenticated` value other than `"true"` (case-insensitively)
always produce `Reject(401, "User not authenticated")`, for every
configuration — in particular even when a correct bearer password is also
supplied. -/
theorem auth_identity_rejection (cfg : AuthConfig) (req : Request)
    (hp : req.path ∉ cfg.excluded_paths) (hm : req.method ≠ "OPTIONS")
    (hid : pyStrip (headerGetD req.headers "x-auth-user-id" "") ≠ "")
    (hem : pyStrip (headerGetD req.headers "x-auth-user-email" "") ≠ "")
    (hau : strLower (headerGetD req.headers "x-auth-authenticated" "false") ≠ "true") :
    dispatch cfg req = .reject 401 "User not authenticated" := by
  unfold dispatch
  rw [if_neg hp, if_neg hm]
  unfold get_user_from_headers
  rw [if_neg (by push_neg; exact ⟨hid, hem⟩)]
  have hfalse : (strLower (headerGetD req.headers "x-auth-authenticated" "false") == "true") = false := by
    simpa using hau
  simp [hfalse]

/-- Witness for C2: a request with identity headers asserting
`authenticated=false` and a correct `Bearer secret` header is still
rejected with 401. -/
theorem auth_identity_rejection_witness :
    pyStrip (headerGetD reqIdentityUnauth.headers "x-auth-user-id" "") ≠ "" ∧
    dispatch cfgPassword reqIdentityUnauth = .reject 401 "User not authenticated" :=
  ⟨by decide, auth_identity_rejection cfgPassword reqIdentityUnauth
    (by decide) (by decide) (by decide) (by decide) (by decide)⟩

/-- C3: on a non-excluded path with a non-`OPTIONS` method, when the
identity headers are incomplete (user id or email empty after stripping)
and Strongly mode is on, `dispatch` rejects with 401 regardless of the
configured password and of any `Authorization` header. -/
theorem auth_strongly_mode (cfg : AuthConfig) (req : Request)
    (hp : req.path ∉ cfg.excluded_paths) (hm : req.method ≠ "OPTIONS")
    (hsm : cfg.strongly_mode = true)
    (hno : pyStrip (headerGetD req.headers "x-auth-user-id" "") = "" ∨
      pyStrip (headerGetD req.headers "x-auth-user-email" "") = "") :
    dispatch cfg req = .reject 401 "Missing Strongly.AI authentication headers" := by
  unfold dispatch
  rw [if_neg hp, if_neg hm]
  unfold get_user_from_headers
  rw [if_pos hno]
  simp [hsm]

/-- Witness for C3: in Strongly mode a request with no identity headers is
rejected even though it carries the correct bearer password. -/
theorem auth_strongly_mode_witness :
    cfgStrict.strongly_mode = true ∧
    dispatch cfgStrict (reqAuth (some "Bearer secret")) =
      .reject 401 "Missing Strongly.AI authentication headers" :=
  ⟨rfl, auth_strongly_mode cfgStrict (reqAuth (some "Bearer secret"))
    (by decide) (by decide) rfl (Or.inl (by decide))⟩

/-- Splitting at the first space finds a marked space when the part before
it contains none. -/
theorem splitOnceAux_no_space (l r : List Char) (h : ' ' ∉ l) :
    splitOnceAux (l ++ ' ' :: r) = some (l, r) := by
  induction l with
  | nil => simp [splitOnceAux]
  | cons c cs ih =>
    have hc : ¬(c = ' ') := fun e => h (e ▸ List.mem_cons_self c cs)
    have h' : ' ' ∉ cs := fun hm => h (List.mem_cons_of_mem _ hm)
    simp [splitOnceAux, hc, ih h']

/-- String version of `splitOnceAux_no_space`: `splitOnce` recovers the
scheme and the token when the scheme has no space. -/
theorem splitOnce_of_no_space (sch t : String) (h : ' ' ∉ sch.data) :
    splitOnce (sch ++ " " ++ t) = some (sch, t) := by
  unfold splitOnce
  have hdata : (sch ++ " " ++ t).data = sch.data ++ ' ' :: t.data := by
    simp [String.data_append]
  rw [hdata, splitOnceAux_no_space _ _ h]
  rfl

/-- A string that lowercases to `"bearer"` contains no space. -/
theorem no_space_of_strLower_bearer (sch : String) (h : strLower sch = "bearer") :
    ' ' ∉ sch.data := by
  intro hm
  have h1 : Char.toLower ' ' ∈ (strLower sch).data := List.mem_map_of_mem _ hm
  rw [h] at h1
  have h2 : Char.toLower ' ' = ' ' := by decide
  rw [h2] at h1
  revert h1
  decide

/-- A string accepted by `splitOnce` is non-empty. -/
theorem ne_empty_of_splitOnce (a : String) (sch cred : String)
    (h : splitOnce a = some (sch, cred)) : a ≠ "" := by
  intro e
  rw [e] at h
  exact Option.noConfusion h

/-- C1 (amended): bearer-token validation in password mode. On a
non-excluded path with a non-`OPTIONS` method, with no identity extracted
from the headers, Strongly mode off and a non-empty password configured:
a `<scheme> <token>` header whose scheme lowercases to `bearer` and whose
token is the password yields `Allow`; an absent or empty-valued
`Authorization` header yields 401 `Missing authorization header`; a
present non-empty header with no space yields 401
`Invalid authorization header format`; a split header whose scheme is not
`bearer` case-insensitively yields the same; a well-formed bearer header
with a wrong token yields 401 `Invalid password`. -/
theorem auth_password_bearer (cfg : AuthConfig) (req : Request)
    (hp : req.path ∉ cfg.excluded_paths) (hm : req.method ≠ "OPTIONS")
    (hno : get_user_from_headers req.headers = none)
    (hsm : cfg.strongly_mode = false)
    (pw : String) (hpw : cfg.password = some pw) (hpw2 : pw ≠ "") :
    (∀ sch, strLower sch = "bearer" →
      req.headers "authorization" = some (sch ++ " " ++ pw) →
      dispatch cfg req = .allow)
    ∧ ((req.headers "authorization" = none ∨ req.headers "authorization" = some "") →
      dispatch cfg req = .reject 401 "Missing authorization header")
    ∧ (∀ a, req.headers "authorization" = some a → a ≠ "" → splitOnce a = none →
      dispatch cfg req = .reject 401 "Invalid authorization header format")
    ∧ (∀ a sch cred, req.headers "authorization" = some a →
      splitOnce a = some (sch, cred) → strLower sch ≠ "bearer" →
      dispatch cfg req = .reject 401 "Invalid authorization header format")
    ∧ (∀ a sch cred, req.headers "authorization" = some a →
      splitOnce a = some (sch, cred) → strLower sch = "bearer" → cred ≠ pw →
      dispatch cfg req = .reject 401 "Invalid password") := by
  have base : dispatch cfg req = passwordCheck pw (req.headers "authorization") := by
    unfold dispatch
    rw [if_neg hp, if_neg hm, hno]
    simp only [hsm, hpw, Bool.false_eq_true, if_false]
    rw [if_neg hpw2]
  refine ⟨?_, ?_, ?_, ?_, ?_⟩
  · intro sch hsch hhdr
    rw [base, hhdr]
    have hempty : ¬(sch ++ " " ++ pw = "") := by
      intro e
      have := congrArg String.data e
      simp [String.data_append] at this
    simp only [passwordCheck, if_neg hempty,
      splitOnce_of_no_space sch pw (no_space_of_strLower_bearer sch hsch)]
    simp [hsch]
  · intro hhdr
    rcases hhdr with h | h <;> rw [base, h] <;> simp [passwordCheck]
  · intro a hhdr ha hsplit
    rw [base, hhdr]
    simp only [passwordCheck, if_neg ha, hsplit]
  · intro a sch cred hhdr hsplit hsch
    rw [base, hhdr]
    simp only [passwordCheck, if_neg (ne_empty_of_splitOnce a sch cred hsplit), hsplit]
    simp [hsch]
  · intro a sch cred hhdr hsplit hsch hcred
    rw [base, hhdr]
    simp only [passwordCheck, if_neg (ne_empty_of_splitOnce a sch cred hsplit), hsplit]
    simp [hsch, hcred]

/-- Counterexample for C1 as stated: the Authorization value `""` is a
header with no space separator (`splitOnce` fails on it), yet `dispatch`
answers `Missing authorization header`, not
`Invalid authorization header format`, because the code treats a falsy
header value like an absent one. -/
theorem auth_password_bearer_cex :
    (reqAuth (some "")).headers "authorization" = some "" ∧
    splitOnce "" = none ∧
    dispatch cfgPassword (reqAuth (some "")) = .reject 401 "Missing authorization header" ∧
    dispatch cfgPassword (reqAuth (some "")) ≠ .reject 401 "Invalid authorization header format" := by
  refine ⟨by decide, by decide, by decide, by decide⟩

/-- Witness for C1: with password `"secret"`, the lowercase scheme header
`bearer secret` is allowed. -/
theorem auth_password_bearer_witness :
    strLower "bearer" = "bearer" ∧
    dispatch cfgPassword (reqAuth (some ("bearer" ++ " " ++ "secret"))) = .allow :=
  ⟨by decide,
    (auth_password_bearer cfgPassword (reqAuth (some ("bearer" ++ " " ++ "secret")))
      (by decide) (by decide) (by decide) rfl "secret" rfl (by decide)).1
      "bearer" (by decide) (by decide)⟩

/-- Stripping trailing slashes from a string that consists only of
slashes leaves the empty string. -/
theorem rstripSlash_all_slash (s : String) (h : ∀ c ∈ s.data, c = '/') :
    rstripSlash s = "" := by
  unfold rstripSlash
  have hnil : s.data.reverse.dropWhile (fun c => c = '/') = [] := by
    rw [List.dropWhile_eq_nil_iff]
    intro x hx
    simp [h x (List.mem_reverse.mp hx)]
  rw [hnil]
  rfl

/-- Gateway extraction succeeds whenever the registry tree holds objects
along `services.ai_gateway` and a non-empty string under `base_url`: the
stored config is the slash-stripped URL plus the raw `api_key` entry. -/
theorem parse_ai_gateway_str (fs svs gw : List (String × Json)) (s : String)
    (h1 : pyGet (.obj fs) "services" (.obj []) = .ok (.obj svs))
    (h2 : pyGet (.obj svs) "ai_gateway" (.obj []) = .ok (.obj gw))
    (h3 : pyGet (.obj gw) "base_url" (.str "") = .ok (.str s))
    (hne : s ≠ "") :
    parse_ai_gateway (.obj fs) =
      some ⟨rstripSlash s, (gw.find? (fun p => p.1 == "api_key")).map (fun p => p.2)⟩ := by
  have hgw : gw ≠ [] := by
    intro e
    rw [e] at h3
    have : Json.str "" = Json.str s := by
      simpa [pyGet] using h3
    exact hne (by injection this with h; exact h.symm)
  have ht : Json.truthy (.obj gw) = true := by
    cases gw with
    | nil => exact absurd rfl hgw
    | cons a l => rfl
  have ht2 : Json.truthy (.str s) = true := by
    simp [Json.truthy, hne]
  have h4 : pyGetOpt (.obj gw) "api_key" =
      .ok ((gw.find? (fun p => p.1 == "api_key")).map (fun p => p.2)) := rfl
  unfold parse_ai_gateway
  simp only [h1, h2, ht, if_true, h3, h4, ht2]

/-- C7: absent or malformed registry input yields an unconfigured registry
on which every `get_service` and `get_database` lookup answers not-found
(without raising); valid JSON whose `services.ai_gateway.base_url` is the
string `"http://x/"` yields a configured registry whose stored base URL is
`"http://x"`, the trailing slash stripped. -/
theorem registry_load_degrades :
    (∀ (name db_type : String) (i : Int),
      is_configured (load_services .absent) = false
      ∧ get_service (load_services .absent) name = .ok none
      ∧ get_database (load_services .absent) db_type i = .ok none
      ∧ is_configured (load_services .malformed) = false
      ∧ get_service (load_services .malformed) name = .ok none
      ∧ get_database (load_services .malformed) db_type i = .ok none)
    ∧ (∀ (fs svs gw : List (String × Json)),
      pyGet (.obj fs) "services" (.obj []) = .ok (.obj svs) →
      pyGet (.obj svs) "ai_gateway" (.obj []) = .ok (.obj gw) →
      pyGet (.obj gw) "base_url" (.str "") = .ok (.str "http://x/") →
      is_configured (load_services (.valid (.obj fs))) = true
      ∧ ∃ c, (load_services (.valid (.obj fs))).ai_gateway = some c ∧
          c.base_url = "http://x") := by
  constructor
  · intro name db_type i
    exact ⟨rfl, rfl, rfl, rfl, rfl, rfl⟩
  · intro fs svs gw h1 h2 h3
    have hparse := parse_ai_gateway_str fs svs gw "http://x/" h1 h2 h3 (by decide)
    constructor
    · simp [is_configured, load_services, hparse]
    · exact ⟨⟨rstripSlash "http://x/", (gw.find? (fun p => p.1 == "api_key")).map (fun p => p.2)⟩,
        by simp [load_services, hparse],
        (by decide : rstripSlash "http://x/" = "http://x")⟩

/-- Witness for C7: the concrete tree `regFields` configures the gateway
with base URL `"http://x"`, and the degraded registries answer not-found
for concrete lookups. -/
theorem registry_load_degrades_witness :
    (get_service (load_services .absent) "ai_gateway" = .ok none
      ∧ get_database (load_services .malformed) "mongodb" 2 = .ok none)
    ∧ (is_configured (load_services (.valid (.obj regFields))) = true
      ∧ ∃ c, (load_services (.valid (.obj regFields))).ai_gateway = some c ∧
          c.base_url = "http://x") :=
  ⟨⟨(registry_load_degrades.1 "ai_gateway" "mongodb" 2).2.1,
    (registry_load_degrades.1 "ai_gateway" "mongodb" 2).2.2.2.2.2⟩,
   registry_load_degrades.2 regFields svcFields gwFields rfl rfl rfl⟩

/-- Counterexample for C8 as stated: when the loaded JSON is valid but its
top level is not an object (here the array `[]`), `get_service` raises
(`AttributeError` escaping to the caller, modelled as `.error ()`) rather
than answering not-found; a negative index below `-len` likewise makes
`get_database` raise `IndexError`. -/
theorem registry_lookup_total_cex :
    get_service (load_services (.valid (.arr []))) "x" = .error () ∧
    get_database (load_services (.valid (.obj dbFields))) "mongodb" (-5) = .error () := by
  exact ⟨rfl, rfl⟩

/-- C8 (amended): registry lookups are total on the shapes the schema
prescribes. For absent or malformed input every lookup answers `.ok`
not-found for every name, type and integer index. For valid JSON,
`get_service` answers `.ok` whenever the top level is an object whose
`services` entry reads as an object; `get_database` answers `.ok`
whenever additionally `databases` and the type entry read as an object
and an array and the index is nonnegative, and any nonnegative index at
or beyond the list length yields not-found, not an error. -/
theorem registry_lookup_total (name db_type : String) (i : Int) :
    (get_service (load_services .absent) name = .ok none
      ∧ get_database (load_services .absent) db_type i = .ok none
      ∧ get_service (load_services .malformed) name = .ok none
      ∧ get_database (load_services .malformed) db_type i = .ok none)
    ∧ (∀ fs svs, pyGet (.obj fs) "services" (.obj []) = .ok (.obj svs) →
      ∃ v, get_service (load_services (.valid (.obj fs))) name = .ok v)
    ∧ (∀ fs svs dbs xs,
      pyGet (.obj fs) "services" (.obj []) = .ok (.obj svs) →
      pyGet (.obj svs) "databases" (.obj []) = .ok (.obj dbs) →
      pyGet (.obj dbs) db_type (.arr []) = .ok (.arr xs) →
      0 ≤ i →
      (∃ v, get_database (load_services (.valid (.obj fs))) db_type i = .ok v)
      ∧ ((xs.length : Int) ≤ i →
        get_database (load_services (.valid (.obj fs))) db_type i = .ok none)) := by
  refine ⟨⟨rfl, rfl, rfl, rfl⟩, ?_, ?_⟩
  · intro fs svs h1
    refine ⟨(svs.find? (fun p => p.1 == name)).map (fun p => p.2), ?_⟩
    simp only [get_service, load_services, h1]
    rfl
  · intro fs svs dbs xs h1 h2 h3 hi
    simp only [get_database, load_services, h1, h2, h3]
    cases xs with
    | nil => exact ⟨⟨none, rfl⟩, fun _ => rfl⟩
    | cons x xs' =>
      have ht : Json.truthy (.arr (x :: xs')) = true := rfl
      simp only [ht, if_true]
      by_cases hlt : ((x :: xs').length : Int) > i
      · rw [if_pos hlt]
        have hidx : pySeqIndex (x :: xs').length i = some i.toNat := by
          simp only [pySeqIndex]
          rw [if_neg (show ¬(i < 0) by omega)]
          rw [if_pos (show 0 ≤ i ∧ i < ((x :: xs').length : Int) by omega)]
        rw [hidx]
        exact ⟨⟨(x :: xs').get? i.toNat, rfl⟩, fun hle => absurd hlt (by omega)⟩
      · rw [if_neg hlt]
        exact ⟨⟨none, rfl⟩, fun _ => rfl⟩

/-- Witness for C8: concrete lookups on the degraded registries and on
the `dbFields` tree, including the out-of-range nonnegative index 5. -/
theorem registry_lookup_total_witness :
    get_service (load_services .absent) "svc" = .ok none ∧
    (∃ v, get_service (load_services (.valid (.obj dbFields)))
      "svc" = .ok v) ∧
    get_database (load_services (.valid (.obj dbFields))) "mongodb" 5 = .ok none :=
  ⟨(registry_lookup_total "svc" "mongodb" 5).1.1,
   (registry_lookup_total "svc" "mongodb" 5).2.1
     dbFields [("databases", .obj [("mongodb", .arr [.str "db0", .str "db1"])])] rfl,
   ((registry_lookup_total "svc" "mongodb" 5).2.2
     dbFields [("databases", .obj [("mongodb", .arr [.str "db0", .str "db1"])])]
     [("mongodb", .arr [.str "db0", .str "db1"])] [.str "db0", .str "db1"]
     rfl rfl rfl (by decide)).2 (by decide)⟩

/-- C10: a `base_url` that is a non-empty string of slashes (for example
`"/"`) passes the truthiness check before stripping, so the gateway is
configured while the stored base URL is the empty string. -/
theorem registry_slash_base_url (fs svs gw : List (String × Json)) (s : String)
    (h1 : pyGet (.obj fs) "services" (.obj []) = .ok (.obj svs))
    (h2 : pyGet (.obj svs) "ai_gateway" (.obj []) = .ok (.obj gw))
    (h3 : pyGet (.obj gw) "base_url" (.str "") = .ok (.str s))
    (hne : s ≠ "") (hsl : ∀ c ∈ s.data, c = '/') :
    is_configured (load_services (.valid (.obj fs))) = true
    ∧ ∃ c, (load_services (.valid (.obj fs))).ai_gateway = some c ∧ c.base_url = "" := by
  have hparse := parse_ai_gateway_str fs svs gw s h1 h2 h3 hne
  constructor
  · simp [is_configured, load_services, hparse]
  · exact ⟨⟨rstripSlash s, (gw.find? (fun p => p.1 == "api_key")).map (fun p => p.2)⟩,
      by simp [load_services, hparse], rstripSlash_all_slash s hsl⟩

/-- Witness for C10: the tree `regSlashFields` with `base_url = "/"` is
configured with empty stored base URL. -/
theorem registry_slash_base_url_witness :
    is_configured (load_services (.valid (.obj regSlashFields))) = true
    ∧ ∃ c, (load_services (.valid (.obj regSlashFields))).ai_gateway = some c ∧
        c.base_url = "" :=
  registry_slash_base_url regSlashFields svcSlashFields gwSlashFields "/"
    rfl rfl rfl (by decide) (by decide)

/-- Existence in an extended store: the appended record matches iff its
name is the queried id and its provider is the gateway provider. -/
theorem modelExists_append (st : List Model) (m : Model) (i : String) :
    modelExists (st ++ [m]) i =
      (modelExists st i || (m.name == i && m.provider == "openai_compatible")) := by
  simp [modelExists, List.any_append]

/-- A sync pass over distinct non-empty ids, none of which is already
stored, syncs every id and appends its record to the store in input
order. -/
theorem sync_models_all_new (ids : List String) : ∀ store : List Model,
    (∀ i ∈ ids, i ≠ "") → ids.Nodup →
    (∀ i ∈ ids, modelExists store i = false) →
    sync_models noFail store ids = (⟨ids.length, 0, 0, ids⟩, store ++ ids.map mkModel) := by
  induction ids with
  | nil => intro store _ _ _; simp [sync_models]
  | cons id rest ih =>
    intro store hne hnd hex
    have hid : ¬(id = "") := hne id (List.mem_cons_self _ _)
    have hmem : modelExists store id = false := hex id (List.mem_cons_self _ _)
    have hrest_ne : ∀ i ∈ rest, i ≠ "" := fun i hi => hne i (List.mem_cons_of_mem _ hi)
    have hid_not : id ∉ rest := (List.nodup_cons.mp hnd).1
    have hrest_ex : ∀ i ∈ rest, modelExists (store ++ [mkModel id]) i = false := by
      intro i hi
      rw [modelExists_append]
      have h1 : modelExists store i = false := hex i (List.mem_cons_of_mem _ hi)
      have hne2 : id ≠ i := fun e => hid_not (by rw [e]; exact hi)
      have h2 : ((mkModel id).name == i) = false := beq_eq_false_iff_ne.mpr hne2
      simp [h1, h2]
    simp only [sync_models, if_neg hid, noFail, Bool.false_eq_true, if_false, hmem]
    rw [ih (store ++ [mkModel id]) hrest_ne (List.nodup_cons.mp hnd).2 hrest_ex]
    simp

/-- A sync pass over non-empty ids that are all already stored skips every
id and leaves the store unchanged. -/
theorem sync_models_all_exist (ids : List String) : ∀ store : List Model,
    (∀ i ∈ ids, i ≠ "") →
    (∀ i ∈ ids, modelExists store i = true) →
    sync_models noFail store ids = (⟨0, ids.length, 0, []⟩, store) := by
  induction ids with
  | nil => intro store _ _; simp [sync_models]
  | cons id rest ih =>
    intro store hne hex
    have hid : ¬(id = "") := hne id (List.mem_cons_self _ _)
    have hmem : modelExists store id = true := hex id (List.mem_cons_self _ _)
    simp only [sync_models, if_neg hid, noFail, Bool.false_eq_true, if_false, hmem, if_true]
    rw [ih store (fun i hi => hne i (List.mem_cons_of_mem _ hi))
      (fun i hi => hex i (List.mem_cons_of_mem _ hi))]
    simp

/-- C5: over an initially empty store and any list of distinct non-empty
ids, the first sync pass reports `synced = N, skipped = 0, errors = 0`
and persists exactly one record per id in input order, and a second pass
over the resulting store reports `synced = 0, skipped = N, errors = 0` —
the existence check before each save prevents any duplicate
`(name, "openai_compatible")` record. -/
theorem sync_idempotent (ids : List String)
    (hne : ∀ i ∈ ids, i ≠ "") (hnd : ids.Nodup) :
    (sync_models noFail [] ids).1 = ⟨ids.length, 0, 0, ids⟩
    ∧ (sync_models noFail [] ids).2 = ids.map mkModel
    ∧ (sync_models noFail (sync_models noFail [] ids).2 ids).1 = ⟨0, ids.length, 0, []⟩ := by
  have h1 := sync_models_all_new ids [] hne hnd (fun i _ => rfl)
  have hex : ∀ i ∈ ids, modelExists (ids.map mkModel) i = true := by
    intro i hi
    apply List.any_eq_true.mpr
    exact ⟨mkModel i, List.mem_map_of_mem _ hi, by simp [mkModel]⟩
  have h2 := sync_models_all_exist ids (ids.map mkModel) hne hex
  refine ⟨by rw [h1], by rw [h1]; simp, ?_⟩
  rw [h1]
  simp only [List.nil_append]
  rw [h2]

/-- Witness for C5: syncing `["text-embedding-3", "gpt-4"]` twice from an
empty store gives `synced=2, skipped=0` then `synced=0, skipped=2`. -/
theorem sync_idempotent_witness :
    (["text-embedding-3", "gpt-4"].Nodup) ∧
    (sync_models noFail [] ["text-embedding-3", "gpt-4"]).1 =
      ⟨2, 0, 0, ["text-embedding-3", "gpt-4"]⟩ ∧
    (sync_models noFail (sync_models noFail [] ["text-embedding-3", "gpt-4"]).2
      ["text-embedding-3", "gpt-4"]).1 = ⟨0, 2, 0, []⟩ :=
  ⟨by decide,
   (sync_idempotent ["text-embedding-3", "gpt-4"] (by decide) (by decide)).1,
   (sync_idempotent ["text-embedding-3", "gpt-4"] (by decide) (by decide)).2.2⟩

/-- C9: per-descriptor failure isolation and accounting, for every store
oracle, initial store and descriptor list: every non-empty id lands in
exactly one of `synced`/`skipped`/`errors` (their sum counts the
non-empty ids, so a failure never stops the rest of the batch from being
processed); `errors` counts exactly the non-empty failing ids; empty ids
are counted nowhere; and the returned `models` list has one entry per
synced id and preserves input order (it is a sublist of the input). -/
theorem sync_accounting (fail : String → Bool) (store : List Model) (ids : List String) :
    (sync_models fail store ids).1.synced + (sync_models fail store ids).1.skipped +
        (sync_models fail store ids).1.errors =
      ids.countP (fun i => !(i == ""))
    ∧ (sync_models fail store ids).1.errors =
      ids.countP (fun i => !(i == "") && fail i)
    ∧ (sync_models fail store ids).1.models.length = (sync_models fail store ids).1.synced
    ∧ (sync_models fail store ids).1.models.Sublist ids
    ∧ (∀ m ∈ (sync_models fail store ids).1.models, ¬(m = "") ∧ fail m = false) := by
  induction ids generalizing store with
  | nil => simp [sync_models]
  | cons id rest ih =>
    by_cases hid : id = ""
    · obtain ⟨e1, e2, e3, e4, e5⟩ := ih store
      have step : sync_models fail store (id :: rest) = sync_models fail store rest := by
        simp [sync_models, hid]
      rw [step]
      refine ⟨?_, ?_, e3, e4.cons _, e5⟩
      · rw [e1, List.countP_cons]
        simp [hid]
      · rw [e2, List.countP_cons]
        simp [hid]
    · by_cases hf : fail id = true
      · obtain ⟨e1, e2, e3, e4, e5⟩ := ih store
        have step : sync_models fail store (id :: rest) =
            (⟨(sync_models fail store rest).1.synced, (sync_models fail store rest).1.skipped,
              (sync_models fail store rest).1.errors + 1, (sync_models fail store rest).1.models⟩,
             (sync_models fail store rest).2) := by
          simp [sync_models, hid, hf]
        rw [step]
        refine ⟨?_, ?_, e3, e4.cons _, e5⟩
        · rw [List.countP_cons]
          simp only [hid, if_false]
          simp [hid]
          omega
        · rw [List.countP_cons]
          simp [hid, hf, e2]
      · have hf' : fail id = false := by simpa using hf
        by_cases hm : modelExists store id = true
        · obtain ⟨e1, e2, e3, e4, e5⟩ := ih store
          have step : sync_models fail store (id :: rest) =
              (⟨(sync_models fail store rest).1.synced, (sync_models fail store rest).1.skipped + 1,
                (sync_models fail store rest).1.errors, (sync_models fail store rest).1.models⟩,
               (sync_models fail store rest).2) := by
            simp [sync_models, hid, hf', hm]
          rw [step]
          refine ⟨?_, ?_, e3, e4.cons _, e5⟩
          · rw [List.countP_cons]
            simp [hid]
            omega
          · rw [List.countP_cons]
            simp [hf', e2]
        · have hm' : modelExists store id = false := by simpa using hm
          obtain ⟨e1, e2, e3, e4, e5⟩ := ih (store ++ [mkModel id])
          have step : sync_models fail store (id :: rest) =
              (⟨(sync_models fail (store ++ [mkModel id]) rest).1.synced + 1,
                (sync_models fail (store ++ [mkModel id]) rest).1.skipped,
                (sync_models fail (store ++ [mkModel id]) rest).1.errors,
                id :: (sync_models fail (store ++ [mkModel id]) rest).1.models⟩,
               (sync_models fail (store ++ [mkModel id]) rest).2) := by
            simp [sync_models, hid, hf', hm']
          rw [step]
          refine ⟨?_, ?_, by simp [e3], e4.cons₂ _, ?_⟩
          · rw [List.countP_cons]
            simp [hid]
            omega
          · rw [List.countP_cons]
            simp [hf', e2]
          · intro m hmem
            rcases List.mem_cons.mp hmem with hmem | hmem
            · rw [hmem]
              exact ⟨hid, hf'⟩
            · exact e5 m hmem

/-- C6: model-type classification is by case-insensitive substring match
with first-match-wins precedence — `embed` beats `tts`/`speech`, which
beat `stt`/`whisper`, and `language` is the default — with the concrete
consequences on `text-embedding-3`, `whisper-1`, `tts-1` and `gpt-4`. -/
theorem classify_model_type :
    (∀ id, containsSub (strLower id) "embed" = true →
      classifyModelType id = "embedding")
    ∧ (∀ id, containsSub (strLower id) "embed" = false →
      (containsSub (strLower id) "tts" = true ∨ containsSub (strLower id) "speech" = true) →
      classifyModelType id = "text_to_speech")
    ∧ (∀ id, containsSub (strLower id) "embed" = false →
      containsSub (strLower id) "tts" = false →
      containsSub (strLower id) "speech" = false →
      (containsSub (strLower id) "stt" = true ∨ containsSub (strLower id) "whisper" = true) →
      classifyModelType id = "speech_to_text")
    ∧ (∀ id, containsSub (strLower id) "embed" = false →
      containsSub (strLower id) "tts" = false →
      containsSub (strLower id) "speech" = false →
      containsSub (strLower id) "stt" = false →
      containsSub (strLower id) "whisper" = false →
      classifyModelType id = "language")
    ∧ classifyModelType "text-embedding-3" = "embedding"
    ∧ classifyModelType "whisper-1" = "speech_to_text"
    ∧ classifyModelType "tts-1" = "text_to_speech"
    ∧ classifyModelType "gpt-4" = "language" := by
  refine ⟨?_, ?_, ?_, ?_, by decide, by decide, by decide, by decide⟩
  · intro id h
    simp [classifyModelType, h]
  · intro id h hts
    rcases hts with hts | hts <;> simp [classifyModelType, h, hts]
  · intro id h h1 h2 hts
    rcases hts with hts | hts <;> simp [classifyModelType, h, h1, h2, hts]
  · intro id h h1 h2 h3 h4
    simp [classifyModelType, h, h1, h2, h3, h4]

/-- Witness for C6: an id containing both `embed` and `tts` is classified
as an embedding model — the first match wins. -/
theorem classify_model_type_witness :
    containsSub (strLower "embed-tts") "embed" = true ∧
    classifyModelType "embed-tts" = "embedding" :=
  ⟨by decide, classify_model_type.1 "embed-tts" (by decide)⟩

end ON
